import Mathlib

/-!
Verification development for the cmdexec library: a test seam for
external-process invocation.  The Go sources are shallowly embedded:
byte slices become `List Nat` (byte values), `io.Reader` values become
an explicit `Reader` state, Go errors become the inductive `GoError`
(with `none : Option GoError` playing the role of a nil error), a Go
panic becomes the `ExecResult.panicked` channel, and the mutable
package globals of the executor switchboard become explicit state
passing over `GlobalState`.
-/

/-- Converts a Lean string to the byte list it denotes.  Models the Go
conversion between `string` and `[]byte` for ASCII content. -/
def strToBytes (s : String) : List Nat :=
  s.data.map Char.toNat

/-- Single-quote character, as a string. -/
def squoteStr : String :=
  String.mk [Char.ofNat 39]

/-- Hexadecimal digit characters, used by the `%q` rendering model. -/
def hexDigits : List Char :=
  "0123456789abcdef".data

/-- Renders one byte the way the Go `%q` verb renders it inside a
quoted string: standard escapes, printable ASCII verbatim, and a
`\xHH` escape otherwise. -/
def goQuoteByte (b : Nat) : String :=
  if b = 34 then "\\\""
  else if b = 92 then "\\\\"
  else if b = 7 then "\\a"
  else if b = 8 then "\\b"
  else if b = 9 then "\\t"
  else if b = 10 then "\\n"
  else if b = 11 then "\\v"
  else if b = 12 then "\\f"
  else if b = 13 then "\\r"
  else if 32 ≤ b ∧ b < 127 then String.mk [Char.ofNat b]
  else "\\x" ++ String.mk [hexDigits.getD (b / 16 % 16) "0".front, hexDigits.getD (b % 16) "0".front]

/-- Renders a byte list the way the Go `%q` verb does: the escaped
bytes surrounded by double quotes. -/
def goQuote (bs : List Nat) : String :=
  "\"" ++ String.join (bs.map goQuoteByte) ++ "\""

/-- Models Go error values that arise in this library.  A nil Go error
is `none : Option GoError`. -/
inductive GoError where
  /-- Models `io.EOF`. -/
  | eof : GoError
  /-- Models an arbitrary error value carrying a message, such as a
  scripted terminal error or an injected read failure. -/
  | errorf (msg : String) : GoError
  /-- Models the error built in `checkStdin` when the expected stdin is
  non-empty but `SetStdin` was never called. -/
  | stdinNotProvided : GoError
  /-- Models the error built in `checkStdin` when the bytes read differ
  from the expected bytes; carries the expected and the actual bytes. -/
  | stdinMismatch (expected got : List Nat) : GoError
  /-- Models `fmt.Errorf` with a `%w` verb: a message prefix wrapping an
  inner error. -/
  | wrapped (prefixMsg : String) (inner : GoError) : GoError
deriving DecidableEq, Repr

/-- Renders a `GoError` as its Go `Error()` message text. -/
def GoError.message : GoError → String
  | .eof => "EOF"
  | .errorf m => m
  | .stdinNotProvided => "expected stdin to be provided but it was not (was SetStdin() called?)"
  | .stdinMismatch expected got =>
      "expected stdin set by SetStdin() to be " ++ goQuote expected ++ " but got " ++ goQuote got
  | .wrapped p inner => p ++ inner.message

/-- Models the `io.Reader` values supplied to `SetStdin`: either a
`bytes.Buffer` holding remaining bytes, or a reader whose reads fail
with a fixed error. -/
inductive Reader where
  /-- Models a `bytes.Buffer` holding the given remaining bytes. -/
  | buffer (data : List Nat) : Reader
  /-- Models a reader whose `Read` always returns the given error. -/
  | failing (e : GoError) : Reader
deriving DecidableEq, Repr

/-- Models one `Read(p)` call with `len(p) = n`.  For a buffer this
follows `bytes.Buffer.Read`: an empty request succeeds with no data, a
request against an exhausted buffer returns `io.EOF`, and otherwise up
to `n` bytes are consumed.  Returns the bytes written into `p` and the
reader state afterwards. -/
def Reader.read : Reader → Nat → (Except GoError (List Nat)) × Reader
  | .buffer d, n =>
      if n = 0 then (.ok [], .buffer d)
      else if d = [] then (.error .eof, .buffer [])
      else (.ok (d.take n), .buffer (d.drop n))
  | .failing e, _ => (.error e, .failing e)

/-- Models `io.ReadAll`: drains the reader, returning everything left
(with EOF not reported as an error), or the read error. -/
def Reader.readAll : Reader → (Except GoError (List Nat)) × Reader
  | .buffer d => (.ok d, .buffer [])
  | .failing e => (.error e, .failing e)

/-- Embeds the Go struct `MockCommand` from mock.go.  The exported
fields are the scripted data; `stdin` is the ephemeral reader recorded
by `SetStdin` (a nil reader is `none`).  Field defaults are the Go zero
values. -/
structure MockCommand where
  Name : String := ""
  Args : List String := []
  Stdout : List Nat := []
  Stderr : List Nat := []
  Stdin : List Nat := []
  Err : Option GoError := none
  stdin : Option Reader := none
deriving DecidableEq, Repr

/-- Embeds `MockCommand.checkStdin`.  Returns the error (nil is `none`)
together with the command afterwards, since reading advances the stdin
reader.  The buffer passed to `Read` is zero-initialised by `make`, so
a short read leaves trailing zero bytes in `got`. -/
def MockCommand.checkStdin (c : MockCommand) : Option GoError × MockCommand :=
  if c.Stdin.length = 0 then (none, c)
  else
    match c.stdin with
    | none => (some .stdinNotProvided, c)
    | some r =>
        match r.read c.Stdin.length with
        | (.error e, r') => (some e, { c with stdin := some r' })
        | (.ok data, r') =>
            let got := data ++ List.replicate (c.Stdin.length - data.length) 0
            if got = c.Stdin then (none, { c with stdin := some r' })
            else
              match r'.readAll with
              | (.error e, r'') =>
                  (some (.wrapped "failed to read remaining stdin: " e), { c with stdin := some r'' })
              | (.ok rest, r'') =>
                  (some (.stdinMismatch c.Stdin (got ++ rest)), { c with stdin := some r'' })

/-- Embeds `MockCommand.Run`: the stdin-check error if any, else the
scripted terminal error. -/
def MockCommand.Run (c : MockCommand) : Option GoError × MockCommand :=
  match c.checkStdin with
  | (some e, c') => (some e, c')
  | (none, c') => (c'.Err, c')

/-- Embeds `MockCommand.Output`: the scripted stdout bytes paired with
the result of `Run`. -/
def MockCommand.Output (c : MockCommand) : (List Nat × Option GoError) × MockCommand :=
  match c.Run with
  | (e, c') => ((c.Stdout, e), c')

/-- Embeds `MockCommand.CombinedOutput`: the scripted stdout bytes
followed by the scripted stderr bytes, paired with the result of
`Run`. -/
def MockCommand.CombinedOutput (c : MockCommand) : (List Nat × Option GoError) × MockCommand :=
  match c.Run with
  | (e, c') => ((c.Stdout ++ c.Stderr, e), c')

/-- Embeds `MockCommand.SetStdin`: records the reader for later
validation. -/
def MockCommand.SetStdin (c : MockCommand) (r : Reader) : MockCommand :=
  { c with stdin := some r }

/-- Embeds `MockCommand.SetEnviron`, a no-op on the mock. -/
def MockCommand.SetEnviron (c : MockCommand) (_env : List String) : MockCommand := c

/-- Embeds `MockCommand.SetDir`, a no-op on the mock. -/
def MockCommand.SetDir (c : MockCommand) (_dir : String) : MockCommand := c

/-- Embeds `MockCommand.String`.  The call to `exec.LookPath` is an OS
facility, embedded as an oracle parameter returning `some` resolved
path on success and `none` on a lookup error. -/
def MockCommand.String (c : MockCommand) (lookPathOracle : String → Option String) : String :=
  let execPath :=
    match lookPathOracle c.Name with
    | some realPath => realPath
    | none => c.Name
  String.intercalate " " (execPath :: c.Args)

/-- Standard base64 alphabet, as used by `base64.StdEncoding`. -/
def b64Alphabet : List Char :=
  "ABCDEFGHIJKLMNOPQRSTUVWXYZabcdefghijklmnopqrstuvwxyz0123456789+/".data

/-- Looks up a 6-bit value in the base64 alphabet. -/
def b64Char (n : Nat) : Char :=
  b64Alphabet.getD n "A".front

/-- Encodes a byte list in standard base64 with padding, grouping the
input in threes as `base64.StdEncoding.EncodeToString` does. -/
def base64Chunks : List Nat → List Char
  | b0 :: b1 :: b2 :: rest =>
      let n := b0 * 65536 + b1 * 256 + b2
      b64Char (n / 262144) :: b64Char (n / 4096 % 64) :: b64Char (n / 64 % 64) ::
        b64Char (n % 64) :: base64Chunks rest
  | [b0, b1] =>
      let n := b0 * 65536 + b1 * 256
      [b64Char (n / 262144), b64Char (n / 4096 % 64), b64Char (n / 64 % 64), "=".front]
  | [b0] =>
      let n := b0 * 65536
      [b64Char (n / 262144), b64Char (n / 4096 % 64), "=".front, "=".front]
  | [] => []

/-- Embeds `base64.StdEncoding.EncodeToString` on the bytes of a
string. -/
def base64Encode (s : String) : String :=
  String.mk (base64Chunks (strToBytes s))

/-- Embeds `MockExecutor.getCommandKey`: base64 of the name, a space,
and the space-joined argument list.  The Go method ignores its
receiver, so the embedding takes no executor argument. -/
def getCommandKey (name : String) (args : List String) : String :=
  base64Encode (name ++ " " ++ String.intercalate " " args)

/-- Looks a key up in an association list, modelling a read of the Go
map `cmds`. -/
def lookupAssoc : List (String × MockCommand) → String → Option MockCommand
  | [], _ => none
  | p :: rest, k => if p.1 = k then some p.2 else lookupAssoc rest k

/-- Inserts a key into an association list, replacing the entry if the
key is present, modelling a write to the Go map `cmds`. -/
def insertAssoc : List (String × MockCommand) → String → MockCommand → List (String × MockCommand)
  | [], k, v => [(k, v)]
  | p :: rest, k, v => if p.1 = k then (k, v) :: rest else p :: insertAssoc rest k v

/-- Embeds the Go struct `MockExecutor`: the map from invocation key to
scripted command, modelled as an association list with map update
semantics. -/
structure MockExecutor where
  cmds : List (String × MockCommand) := []
deriving DecidableEq, Repr

/-- Embeds `MockExecutor.AddCommand`: inserts or replaces the command
under its invocation key. -/
def MockExecutor.AddCommand (e : MockExecutor) (cmd : MockCommand) : MockExecutor :=
  ⟨insertAssoc e.cmds (getCommandKey cmd.Name cmd.Args) cmd⟩

/-- Embeds `NewMockExecutor`: starts from an empty map and adds each
given command in order. -/
def NewMockExecutor (cmds : List MockCommand) : MockExecutor :=
  cmds.foldl MockExecutor.AddCommand ⟨[]⟩

/-- Result of the mock dispatcher.  A Go panic does not return a value
to the caller; it is embedded as the separate `panicked` channel
carrying the panic message. -/
inductive ExecResult where
  | ok (cmd : MockCommand) : ExecResult
  | panicked (msg : String) : ExecResult
deriving DecidableEq, Repr

/-- Message carried by the panic raised on an unregistered invocation. -/
def noCommandMsg (name : String) (args : List String) : String :=
  "cmdexec: no command registered for " ++ squoteStr ++ name ++ " " ++
    String.intercalate " " args ++ squoteStr ++ " missing call to MockExecutor.AddCommand?"

/-- Embeds `MockExecutor.executor`: computes the invocation key and
returns the registered command, or panics with the exact message from
mock.go if no command is registered for the key.  The unused context
argument is dropped. -/
def MockExecutor.executor (e : MockExecutor) (name : String) (args : List String) : ExecResult :=
  match lookupAssoc e.cmds (getCommandKey name args) with
  | some cmd => .ok cmd
  | none => .panicked (noCommandMsg name args)

/-- Value held by the package-global `executor` variable: either the
standard executor wrapping `exec.CommandContext`, or the bound
`executor` method of a mock. -/
inductive ExecutorImpl where
  | std : ExecutorImpl
  | mock (e : MockExecutor) : ExecutorImpl
deriving DecidableEq, Repr

/-- Value held by the package-global `lookPath` variable: either the
standard `exec.LookPath` wrapper, or the bound `lookPath` method of a
mock. -/
inductive LookPathImpl where
  | std : LookPathImpl
  | mock (e : MockExecutor) : LookPathImpl
deriving DecidableEq, Repr

/-- Embeds the package globals of the executor switchboard: the current
executor function, the current path-resolver function, and whether the
write-exclusivity lock `executorWLock` is held.  Defaults are the
program-start state. -/
structure GlobalState where
  executor : ExecutorImpl := .std
  lookPath : LookPathImpl := .std
  wLockHeld : Bool := false
deriving DecidableEq, Repr

/-- Data captured by the cleanup closure registered in
`UseMockExecutor`: the previous executor and path-resolver values. -/
structure CleanupAction where
  originalExecutor : ExecutorImpl
  originalLookPath : LookPathImpl
deriving DecidableEq, Repr

/-- Embeds the `mockt.T` test handle: the failed flag, the recorded
fatal message, and the registered cleanup callback (the last `Cleanup`
call wins, as in mockt). -/
structure MockT where
  failed : Bool := false
  fatalMsg : Option String := none
  cleanup : Option CleanupAction := none
deriving DecidableEq, Repr

/-- Embeds `UseMockExecutor`.  A failed `TryLock` (the lock already
held) calls `t.Fatal` with the fixed message and returns with the
globals untouched.  Otherwise the mock functions are swapped in, the
lock is held, and a cleanup callback capturing the previous functions
is registered on the test handle. -/
def UseMockExecutor (g : GlobalState) (t : MockT) (mock : MockExecutor) : GlobalState × MockT :=
  if g.wLockHeld then
    (g, { t with failed := true,
                 fatalMsg := some "UseMockExecutor can only be called once per test" })
  else
    ({ executor := .mock mock, lookPath := .mock mock, wLockHeld := true },
     { t with cleanup := some { originalExecutor := g.executor,
                                originalLookPath := g.lookPath } })

/-- Embeds the cleanup closure registered by `UseMockExecutor`:
restores the captured executor and path-resolver values and unlocks
`executorWLock`. -/
def runCleanup (g : GlobalState) (act : CleanupAction) : GlobalState :=
  let _ := g
  { executor := act.originalExecutor, lookPath := act.originalLookPath, wLockHeld := false }

/-- Result of `CommandContext`: dispatch to the real OS facility (kept
opaque) or to the mock executor. -/
inductive DispatchResult where
  | real (name : String) (args : List String) : DispatchResult
  | mocked (r : ExecResult) : DispatchResult
deriving DecidableEq, Repr

/-- Embeds `CommandContext`: invokes whichever executor function the
switchboard currently holds. -/
def commandContext (g : GlobalState) (name : String) (args : List String) : DispatchResult :=
  match g.executor with
  | .std => .real name args
  | .mock e => .mocked (e.executor name args)

/-- Concrete command expecting stdin `hello world`, with no stdin
source recorded. -/
def catHello : MockCommand :=
  { Name := "cat", Stdin := strToBytes "hello world" }

/-- The `catHello` command fed a buffer holding exactly the expected
bytes. -/
def catHelloFed : MockCommand :=
  { catHello with stdin := some (.buffer (strToBytes "hello world")) }

/-- The `catHello` command fed a buffer holding different bytes. -/
def catGoodbyeFed : MockCommand :=
  { catHello with stdin := some (.buffer (strToBytes "goodbye world")) }

/-- The `catHello` command fed a reader whose reads fail. -/
def catHelloBroken : MockCommand :=
  { catHello with stdin := some (.failing (.errorf "boom")) }

/-- The `catHello` command with its stdin source exhausted. -/
def catHelloDrained : MockCommand :=
  { catHello with stdin := some (.buffer []) }

/-- Looking up the key just inserted returns the inserted value. -/
theorem lookupAssoc_insertAssoc_self (l : List (String × MockCommand)) (k : String)
    (v : MockCommand) : lookupAssoc (insertAssoc l k v) k = some v := by
  induction l with
  | nil => simp [insertAssoc, lookupAssoc]
  | cons p rest ih =>
      by_cases h : p.1 = k
      · simp [insertAssoc, h, lookupAssoc]
      · simp [insertAssoc, h, lookupAssoc, ih]

/-- Inserting under one key does not change lookups of another key. -/
theorem lookupAssoc_insertAssoc_ne (l : List (String × MockCommand)) (k k' : String)
    (v : MockCommand) (h : k' ≠ k) :
    lookupAssoc (insertAssoc l k v) k' = lookupAssoc l k' := by
  induction l with
  | nil => simp [insertAssoc, lookupAssoc, Ne.symm h]
  | cons p rest ih =>
      by_cases hp : p.1 = k
      · subst hp
        simp [insertAssoc, lookupAssoc, Ne.symm h]
      · by_cases hp' : p.1 = k'
        · simp [insertAssoc, hp, lookupAssoc, hp', h]
        · simp [insertAssoc, hp, lookupAssoc, hp', ih]

/-- Replacing an existing key keeps the association list length. -/
theorem insertAssoc_length_of_mem (l : List (String × MockCommand)) (k : String)
    (v : MockCommand) (h : lookupAssoc l k ≠ none) :
    (insertAssoc l k v).length = l.length := by
  induction l with
  | nil => simp [lookupAssoc] at h
  | cons p rest ih =>
      by_cases hp : p.1 = k
      · simp [insertAssoc, hp]
      · simp only [lookupAssoc, hp, if_false] at h
        simp [insertAssoc, hp, ih h]

/-- Adding commands whose keys all differ from a given key leaves the
lookup of that key unchanged. -/
theorem lookupAssoc_foldl_addCommand (e : MockExecutor) (later : List MockCommand)
    (key : String) (h : ∀ c' ∈ later, getCommandKey c'.Name c'.Args ≠ key) :
    lookupAssoc (later.foldl MockExecutor.AddCommand e).cmds key = lookupAssoc e.cmds key := by
  induction later generalizing e with
  | nil => rfl
  | cons c rest ih =>
      simp only [List.foldl_cons]
      rw [ih (e.AddCommand c) (fun c' hc' => h c' (List.mem_cons_of_mem _ hc'))]
      exact lookupAssoc_insertAssoc_ne _ _ _ _ (Ne.symm (h c (List.mem_cons_self _ _)))

/-- Claim C1: dispatching an invocation whose key has no registered
command does not return an error value; it panics, and the panic
message is exactly the literal
`cmdexec: no command registered for '<name> <args joined by space>'
missing call to MockExecutor.AddCommand?` with the name and the
space-joined arguments substituted in. -/
theorem mockExecutor_unregistered_panics (e : MockExecutor) (name : String)
    (args : List String) (h : lookupAssoc e.cmds (getCommandKey name args) = none) :
    e.executor name args =
      .panicked ("cmdexec: no command registered for " ++ squoteStr ++ name ++ " " ++
        String.intercalate " " args ++ squoteStr ++
        " missing call to MockExecutor.AddCommand?") := by
  unfold MockExecutor.executor
  rw [h]
  rfl

/-- Witness for C1: the empty mock executor has nothing registered for
`echo hello`, and dispatching it panics with the exact message. -/
theorem mockExecutor_unregistered_panics_witness :
    lookupAssoc (NewMockExecutor []).cmds (getCommandKey "echo" ["hello"]) = none ∧
    (NewMockExecutor []).executor "echo" ["hello"] =
      .panicked ("cmdexec: no command registered for " ++ squoteStr ++ "echo hello" ++
        squoteStr ++ " missing call to MockExecutor.AddCommand?") := by
  refine ⟨by decide, ?_⟩
  have h := mockExecutor_unregistered_panics (NewMockExecutor []) "echo" ["hello"] (by decide)
  rw [h]
  decide

/-- Claim C2 (refuted at the failing input): the key derivation is not
injective on (name, ordered argument list).  The pairs
`("a", ["b c"])` and `("a", ["b", "c"])` are distinct invocations but
receive the same key, and registering commands for both makes dispatch
of the first pair return the command registered for the second. -/
theorem getCommandKey_not_injective :
    getCommandKey "a" ["b c"] = getCommandKey "a" ["b", "c"] ∧
    (["b c"] : List String) ≠ ["b", "c"] ∧
    (NewMockExecutor
        [{ Name := "a", Args := ["b c"], Stdout := strToBytes "ONE" },
         { Name := "a", Args := ["b", "c"], Stdout := strToBytes "TWO" }]).executor
      "a" ["b c"] =
      .ok { Name := "a", Args := ["b", "c"], Stdout := strToBytes "TWO" } := by
  refine ⟨by decide, by decide, by decide⟩

/-- Claim C3: dispatching a registered (name, args) pair returns
exactly the most recently registered command for its invocation key,
no matter how many commands with other keys are registered afterwards;
and re-registering the same key replaces the earlier entry (dispatch
returns the newer command and the registry does not grow). -/
theorem mockDispatch_returns_latest_registered :
    (∀ (e : MockExecutor) (c : MockCommand) (later : List MockCommand),
        (∀ c' ∈ later, getCommandKey c'.Name c'.Args ≠ getCommandKey c.Name c.Args) →
        (later.foldl MockExecutor.AddCommand (e.AddCommand c)).executor c.Name c.Args = .ok c) ∧
    (∀ (e : MockExecutor) (c1 c2 : MockCommand),
        getCommandKey c2.Name c2.Args = getCommandKey c1.Name c1.Args →
        ((e.AddCommand c1).AddCommand c2).executor c1.Name c1.Args = .ok c2 ∧
        ((e.AddCommand c1).AddCommand c2).cmds.length = (e.AddCommand c1).cmds.length) := by
  constructor
  · intro e c later h
    unfold MockExecutor.executor
    rw [lookupAssoc_foldl_addCommand _ later _ h]
    show (match lookupAssoc (insertAssoc e.cmds (getCommandKey c.Name c.Args) c)
            (getCommandKey c.Name c.Args) with
          | some cmd => ExecResult.ok cmd
          | none => _) = _
    rw [lookupAssoc_insertAssoc_self]
  · intro e c1 c2 h
    constructor
    · unfold MockExecutor.executor
      show (match lookupAssoc (insertAssoc (e.AddCommand c1).cmds
              (getCommandKey c2.Name c2.Args) c2) (getCommandKey c1.Name c1.Args) with
            | some cmd => ExecResult.ok cmd
            | none => _) = _
      rw [h, lookupAssoc_insertAssoc_self]
    · show (insertAssoc (e.AddCommand c1).cmds (getCommandKey c2.Name c2.Args) c2).length = _
      rw [h]
      apply insertAssoc_length_of_mem
      show lookupAssoc (insertAssoc e.cmds (getCommandKey c1.Name c1.Args) c1) _ ≠ none
      rw [lookupAssoc_insertAssoc_self]
      simp

/-- Witness for C3: a command registered for `echo hi` is still
returned after an unrelated registration, and re-registering `echo hi`
makes dispatch return the newer command while the registry keeps a
single entry. -/
theorem mockDispatch_returns_latest_registered_witness :
    ([({ Name := "ls", Args := [], Stdout := strToBytes "L" } : MockCommand)].foldl
        MockExecutor.AddCommand
        ((⟨[]⟩ : MockExecutor).AddCommand
          { Name := "echo", Args := ["hi"], Stdout := strToBytes "HI" })).executor
      "echo" ["hi"] = .ok { Name := "echo", Args := ["hi"], Stdout := strToBytes "HI" } ∧
    (((⟨[]⟩ : MockExecutor).AddCommand
        { Name := "echo", Args := ["hi"], Stdout := strToBytes "HI" }).AddCommand
        { Name := "echo", Args := ["hi"], Stdout := strToBytes "HI2" }).executor
      "echo" ["hi"] = .ok { Name := "echo", Args := ["hi"], Stdout := strToBytes "HI2" } ∧
    (((⟨[]⟩ : MockExecutor).AddCommand
        { Name := "echo", Args := ["hi"], Stdout := strToBytes "HI" }).AddCommand
        { Name := "echo", Args := ["hi"], Stdout := strToBytes "HI2" }).cmds.length =
      (((⟨[]⟩ : MockExecutor).AddCommand
        { Name := "echo", Args := ["hi"], Stdout := strToBytes "HI" })).cmds.length := by
  refine ⟨?_, ?_, ?_⟩
  · exact mockDispatch_returns_latest_registered.1 ⟨[]⟩
      { Name := "echo", Args := ["hi"], Stdout := strToBytes "HI" }
      [{ Name := "ls", Args := [], Stdout := strToBytes "L" }] (by decide)
  · exact (mockDispatch_returns_latest_registered.2 ⟨[]⟩
      { Name := "echo", Args := ["hi"], Stdout := strToBytes "HI" }
      { Name := "echo", Args := ["hi"], Stdout := strToBytes "HI2" } (by decide)).1
  · exact (mockDispatch_returns_latest_registered.2 ⟨[]⟩
      { Name := "echo", Args := ["hi"], Stdout := strToBytes "HI" }
      { Name := "echo", Args := ["hi"], Stdout := strToBytes "HI2" } (by decide)).2

/-- With empty expected stdin the check does nothing. -/
theorem checkStdin_empty (c : MockCommand) (h : c.Stdin = []) :
    c.checkStdin = (none, c) := by
  simp [MockCommand.checkStdin, h]

/-- With non-empty expected stdin and no recorded reader the check
fails with the stdin-not-provided error. -/
theorem checkStdin_no_reader (c : MockCommand) (h : c.Stdin ≠ [])
    (hs : c.stdin = none) :
    c.checkStdin = (some .stdinNotProvided, c) := by
  have hn : ¬(c.Stdin.length = 0) := fun he => h (List.length_eq_zero.mp he)
  simp [MockCommand.checkStdin, hn, hs]

/-- With non-empty expected stdin and a failing reader the check
propagates the read error. -/
theorem checkStdin_failing_reader (c : MockCommand) (e : GoError) (h : c.Stdin ≠ [])
    (hs : c.stdin = some (.failing e)) :
    c.checkStdin = (some e, { c with stdin := some (.failing e) }) := by
  have hn : ¬(c.Stdin.length = 0) := fun he => h (List.length_eq_zero.mp he)
  simp [MockCommand.checkStdin, hn, hs, Reader.read]

/-- With a buffer holding enough bytes whose prefix matches the
expected bytes, the check succeeds and consumes exactly the expected
number of bytes. -/
theorem checkStdin_buffer_match (c : MockCommand) (d : List Nat) (h : c.Stdin ≠ [])
    (hs : c.stdin = some (.buffer d)) (hlen : c.Stdin.length ≤ d.length)
    (hm : d.take c.Stdin.length = c.Stdin) :
    c.checkStdin = (none, { c with stdin := some (.buffer (d.drop c.Stdin.length)) }) := by
  have hn : ¬(c.Stdin.length = 0) := fun he => h (List.length_eq_zero.mp he)
  have hd : ¬(d = []) := by
    intro he
    subst he
    exact h (List.length_eq_zero.mp (Nat.le_zero.mp (by simpa using hlen)))
  have hlen2 : (d.take c.Stdin.length).length = c.Stdin.length := by
    rw [List.length_take]
    exact min_eq_left hlen
  simp [MockCommand.checkStdin, hn, hs, Reader.read, hd, hlen2, hm]

/-- With a buffer holding enough bytes whose prefix differs from the
expected bytes, the check drains the buffer and reports a mismatch
whose actual bytes are the whole buffer content. -/
theorem checkStdin_buffer_mismatch (c : MockCommand) (d : List Nat) (h : c.Stdin ≠ [])
    (hs : c.stdin = some (.buffer d)) (hlen : c.Stdin.length ≤ d.length)
    (hm : d.take c.Stdin.length ≠ c.Stdin) :
    c.checkStdin =
      (some (.stdinMismatch c.Stdin d), { c with stdin := some (.buffer []) }) := by
  have hn : ¬(c.Stdin.length = 0) := fun he => h (List.length_eq_zero.mp he)
  have hd : ¬(d = []) := by
    intro he
    subst he
    exact h (List.length_eq_zero.mp (Nat.le_zero.mp (by simpa using hlen)))
  have hlen2 : (d.take c.Stdin.length).length = c.Stdin.length := by
    rw [List.length_take]
    exact min_eq_left hlen
  simp [MockCommand.checkStdin, hn, hs, Reader.read, hd, hlen2, hm, Reader.readAll,
    List.take_append_drop]

/-- With non-empty expected stdin and an exhausted buffer the check
returns the EOF read error. -/
theorem checkStdin_buffer_exhausted (c : MockCommand) (h : c.Stdin ≠ [])
    (hs : c.stdin = some (.buffer [])) :
    c.checkStdin = (some .eof, { c with stdin := some (.buffer []) }) := by
  have hn : ¬(c.Stdin.length = 0) := fun he => h (List.length_eq_zero.mp he)
  simp [MockCommand.checkStdin, hn, hs, Reader.read]

/-- The stdin check never changes the scripted terminal error. -/
theorem checkStdin_preserves_Err (c : MockCommand) : ((c.checkStdin).2).Err = c.Err := by
  unfold MockCommand.checkStdin
  split
  · rfl
  · split
    · rfl
    · split
      · rfl
      · dsimp only
        split
        · rfl
        · split
          · rfl
          · rfl

/-- Claim C5: the combined output of a scripted command is the scripted
stdout bytes followed by the scripted stderr bytes, in that fixed
order, paired with the run error. -/
theorem mockCommand_combinedOutput_order (c : MockCommand) :
    (c.CombinedOutput).1.1 = c.Stdout ++ c.Stderr ∧
    (c.CombinedOutput).1.2 = (c.Run).1 := by
  rcases h : c.Run with ⟨e, c'⟩
  simp [MockCommand.CombinedOutput, h]

/-- Claim C4: stdin validation of a scripted command.  With non-empty
expected stdin: no recorded source gives the distinct
stdin-not-provided error from run, output and combinedOutput; a failing
read propagates the read error; a buffer source holding at least the
expected number of bytes has exactly that many bytes read, which are
compared byte for byte, and on mismatch the remainder is drained and
the error message is exactly the SetStdin mismatch text with the
expected and the full actual bytes substituted; on match the check
succeeds.  With empty expected stdin no validation occurs. -/
theorem mockCommand_stdin_validation (c : MockCommand) :
    (c.Stdin = [] → c.checkStdin = (none, c)) ∧
    (c.Stdin ≠ [] →
      (c.stdin = none →
        (c.Run).1 = some GoError.stdinNotProvided ∧
        (c.Output).1.2 = some GoError.stdinNotProvided ∧
        (c.CombinedOutput).1.2 = some GoError.stdinNotProvided ∧
        (∀ expected got, GoError.stdinNotProvided ≠ GoError.stdinMismatch expected got)) ∧
      (∀ e, c.stdin = some (.failing e) → (c.Run).1 = some e) ∧
      (∀ d, c.stdin = some (.buffer d) → c.Stdin.length ≤ d.length →
        (d.take c.Stdin.length = c.Stdin →
          c.checkStdin = (none, { c with stdin := some (.buffer (d.drop c.Stdin.length)) })) ∧
        (d.take c.Stdin.length ≠ c.Stdin →
          c.checkStdin = (some (.stdinMismatch c.Stdin d), { c with stdin := some (.buffer []) }) ∧
          (c.Run).1 = some (.stdinMismatch c.Stdin d) ∧
          (GoError.stdinMismatch c.Stdin d).message =
            "expected stdin set by SetStdin() to be " ++ goQuote c.Stdin ++ " but got " ++
              goQuote d))) := by
  constructor
  · exact fun h => checkStdin_empty c h
  · intro h
    refine ⟨?_, ?_, ?_⟩
    · intro hs
      have hc := checkStdin_no_reader c h hs
      refine ⟨?_, ?_, ?_, ?_⟩
      · simp [MockCommand.Run, hc]
      · simp [MockCommand.Output, MockCommand.Run, hc]
      · simp [MockCommand.CombinedOutput, MockCommand.Run, hc]
      · intro expected got hne
        cases hne
    · intro e hs
      have hc := checkStdin_failing_reader c e h hs
      simp [MockCommand.Run, hc]
    · intro d hs hlen
      constructor
      · intro hm
        exact checkStdin_buffer_match c d h hs hlen hm
      · intro hm
        have hc := checkStdin_buffer_mismatch c d h hs hlen hm
        refine ⟨hc, ?_, rfl⟩
        simp [MockCommand.Run, hc]

/-- Witness for C4: concrete instances of every branch, matching the
spec scenario with expected stdin `hello world`.  The mismatch run
against a buffer holding `goodbye world` produces the exact message
text. -/
theorem mockCommand_stdin_validation_witness :
    (catHello.Run).1 = some GoError.stdinNotProvided ∧
    catHelloFed.checkStdin = (none, catHelloDrained) ∧
    (catGoodbyeFed.Run).1 =
      some (.stdinMismatch (strToBytes "hello world") (strToBytes "goodbye world")) ∧
    (catHelloBroken.Run).1 = some (.errorf "boom") ∧
    (GoError.stdinMismatch (strToBytes "hello world") (strToBytes "goodbye world")).message =
      "expected stdin set by SetStdin() to be \"hello world\" but got \"goodbye world\"" ∧
    ({ Name := "true" } : MockCommand).checkStdin = (none, { Name := "true" }) := by
  refine ⟨?_, ?_, ?_, ?_, by decide, ?_⟩
  · exact (((mockCommand_stdin_validation catHello).2 (by decide)).1 rfl).1
  · have hm := (((mockCommand_stdin_validation catHelloFed).2 (by decide)).2.2
      (strToBytes "hello world") rfl (by decide)).1 (by decide)
    rw [hm]
    decide
  · have hm := (((mockCommand_stdin_validation catGoodbyeFed).2 (by decide)).2.2
      (strToBytes "goodbye world") rfl (by decide)).2 (by decide)
    exact hm.2.1
  · exact ((mockCommand_stdin_validation catHelloBroken).2 (by decide)).2.1
      (.errorf "boom") rfl
  · exact (mockCommand_stdin_validation _).1 rfl

/-- Claim C6: the display string of a scripted command is the resolved
path when the path resolver finds one for the name, else the raw name,
followed by the space-joined arguments; in particular `echo` with args
`hello world` renders as `/bin/echo hello world` with a registered
path `/bin/echo`, and as `echo hello world` without one. -/
theorem mockCommand_string_display :
    (∀ (c : MockCommand) (oracle : String → Option String) (p : String),
        oracle c.Name = some p → c.String oracle = String.intercalate " " (p :: c.Args)) ∧
    (∀ (c : MockCommand) (oracle : String → Option String),
        oracle c.Name = none → c.String oracle = String.intercalate " " (c.Name :: c.Args)) ∧
    ({ Name := "echo", Args := ["hello", "world"] } : MockCommand).String
        (fun n => if n = "echo" then some "/bin/echo" else none) = "/bin/echo hello world" ∧
    ({ Name := "echo", Args := ["hello", "world"] } : MockCommand).String (fun _ => none) =
      "echo hello world" := by
  refine ⟨?_, ?_, by decide, by decide⟩
  · intro c oracle p hp
    simp [MockCommand.String, hp]
  · intro c oracle hp
    simp [MockCommand.String, hp]

/-- Witness for C6: the resolved and unresolved branches of the display
string, instantiated for a concrete command and oracle. -/
theorem mockCommand_string_display_witness :
    ({ Name := "cat", Args := ["a.txt", "b.txt"] } : MockCommand).String
        (fun n => if n = "cat" then some "/bin/cat" else none) = "/bin/cat a.txt b.txt" ∧
    ({ Name := "cat", Args := ["a.txt", "b.txt"] } : MockCommand).String (fun _ => none) =
      "cat a.txt b.txt" := by
  constructor
  · exact (mockCommand_string_display.1 { Name := "cat", Args := ["a.txt", "b.txt"] }
      (fun n => if n = "cat" then some "/bin/cat" else none) "/bin/cat" (by decide)).trans
      (by decide)
  · exact (mockCommand_string_display.2.1 { Name := "cat", Args := ["a.txt", "b.txt"] }
      (fun _ => none) rfl).trans (by decide)

/-- Claim C7: installing a mock while a substitution is already active
marks the test failed with the fixed fatal message and leaves the
switchboard untouched: the executor and path-resolver functions are
unchanged, no cleanup is registered, and the lock stays held, so the
first substitution remains the single active one. -/
theorem useMockExecutor_second_install_fails (g : GlobalState) (t : MockT)
    (mock : MockExecutor) (h : g.wLockHeld = true) :
    (UseMockExecutor g t mock).1 = g ∧
    (UseMockExecutor g t mock).2.failed = true ∧
    (UseMockExecutor g t mock).2.fatalMsg =
      some "UseMockExecutor can only be called once per test" ∧
    (UseMockExecutor g t mock).2.cleanup = t.cleanup ∧
    (UseMockExecutor g t mock).1.executor = g.executor ∧
    (UseMockExecutor g t mock).1.lookPath = g.lookPath ∧
    (UseMockExecutor g t mock).1.wLockHeld = true := by
  simp [UseMockExecutor, h]

/-- Witness for C7: a second install attempt against a held lock fails
the test and changes nothing. -/
theorem useMockExecutor_second_install_fails_witness :
    (UseMockExecutor { wLockHeld := true } {} ⟨[]⟩).1 = { wLockHeld := true } ∧
    (UseMockExecutor { wLockHeld := true } {} ⟨[]⟩).2.failed = true ∧
    (UseMockExecutor { wLockHeld := true } {} ⟨[]⟩).2.fatalMsg =
      some "UseMockExecutor can only be called once per test" ∧
    (UseMockExecutor { wLockHeld := true } {} ⟨[]⟩).2.cleanup = none ∧
    (UseMockExecutor { wLockHeld := true } {} ⟨[]⟩).1.wLockHeld = true := by
  have h := useMockExecutor_second_install_fails { wLockHeld := true } {} ⟨[]⟩ rfl
  exact ⟨h.1, h.2.1, h.2.2.1, h.2.2.2.1, h.2.2.2.2.2.2⟩

/-- Claim C8: a successful install registers a cleanup capturing the
previous executor and path-resolver values, and running that cleanup
restores the switchboard exactly to its pre-install state and releases
the exclusivity lock, so subsequent dispatch behaves as before the
install. -/
theorem useMockExecutor_cleanup_roundtrip (g : GlobalState) (t : MockT)
    (mock : MockExecutor) (h : g.wLockHeld = false) :
    (UseMockExecutor g t mock).2.cleanup =
      some { originalExecutor := g.executor, originalLookPath := g.lookPath } ∧
    runCleanup (UseMockExecutor g t mock).1
      { originalExecutor := g.executor, originalLookPath := g.lookPath } = g ∧
    (runCleanup (UseMockExecutor g t mock).1
      { originalExecutor := g.executor, originalLookPath := g.lookPath }).wLockHeld = false ∧
    (∀ name args,
      commandContext
        (runCleanup (UseMockExecutor g t mock).1
          { originalExecutor := g.executor, originalLookPath := g.lookPath }) name args =
      commandContext g name args) := by
  rcases g with ⟨ge, gl, gw⟩
  simp only at h
  subst h
  simp [UseMockExecutor, runCleanup]

/-- Witness for C8: install from the program-start state followed by
the cleanup is the identity on the switchboard, releases the lock, and
makes dispatch go back to the real executor. -/
theorem useMockExecutor_cleanup_roundtrip_witness :
    (UseMockExecutor {} {} ⟨[]⟩).2.cleanup =
      some { originalExecutor := .std, originalLookPath := .std } ∧
    runCleanup (UseMockExecutor {} {} ⟨[]⟩).1
      { originalExecutor := .std, originalLookPath := .std } = {} ∧
    (runCleanup (UseMockExecutor {} {} ⟨[]⟩).1
      { originalExecutor := .std, originalLookPath := .std }).wLockHeld = false ∧
    commandContext
      (runCleanup (UseMockExecutor {} {} ⟨[]⟩).1
        { originalExecutor := .std, originalLookPath := .std }) "echo" ["hi"] =
      .real "echo" ["hi"] := by
  have h := useMockExecutor_cleanup_roundtrip {} {} ⟨[]⟩ rfl
  exact ⟨h.1, h.2.1, h.2.2.1, (h.2.2.2 "echo" ["hi"]).trans rfl⟩

/-- Claim C9: run returns the stdin-check error when there is one and
the scripted terminal error otherwise; output returns the scripted
stdout bytes paired with the run error, stdout being returned even
alongside a non-nil error; and the concrete echo command scripted with
stdout HI yields (HI, no error). -/
theorem mockCommand_run_and_output (c : MockCommand) :
    (∀ e c', c.checkStdin = (some e, c') → c.Run = (some e, c')) ∧
    (∀ c', c.checkStdin = (none, c') → c.Run = (c.Err, c')) ∧
    (c.Output).1.1 = c.Stdout ∧
    (c.Output).1.2 = (c.Run).1 ∧
    (({ Name := "echo", Args := ["hi"], Stdout := strToBytes "HI" } : MockCommand).Output).1 =
      (strToBytes "HI", none) := by
  refine ⟨?_, ?_, ?_, ?_, by decide⟩
  · intro e c' hc
    simp [MockCommand.Run, hc]
  · intro c' hc
    have hErr := checkStdin_preserves_Err c
    rw [hc] at hErr
    simp at hErr
    simp [MockCommand.Run, hc, hErr]
  · rcases h : c.Run with ⟨e, c'⟩
    simp [MockCommand.Output, h]
  · rcases h : c.Run with ⟨e, c'⟩
    simp [MockCommand.Output, h]

/-- Witness for C9: the stdin-check error wins for a command missing
its stdin source, and an error-free command returns its scripted
terminal error, here a concrete scripted failure whose stdout is still
returned by output. -/
theorem mockCommand_run_and_output_witness :
    ({ Name := "cat", Stdin := strToBytes "x" } : MockCommand).Run =
      (some GoError.stdinNotProvided, { Name := "cat", Stdin := strToBytes "x" }) ∧
    ({ Name := "false", Err := some (.errorf "exit status 1"),
        Stdout := strToBytes "partial" } : MockCommand).Run =
      (some (.errorf "exit status 1"),
        { Name := "false", Err := some (.errorf "exit status 1"),
          Stdout := strToBytes "partial" }) ∧
    (({ Name := "false", Err := some (.errorf "exit status 1"),
        Stdout := strToBytes "partial" } : MockCommand).Output).1 =
      (strToBytes "partial", some (.errorf "exit status 1")) := by
  refine ⟨?_, ?_, by decide⟩
  · exact (mockCommand_run_and_output _).1 GoError.stdinNotProvided _ (by decide)
  · exact (mockCommand_run_and_output _).2.1 _ (by decide)

/-- Claim C10: running a scripted command with non-empty expected stdin
consumes the stdin source.  After one successful run against a buffer
holding exactly the expected bytes, the source is exhausted, and a
second run without a new SetStdin call fails with the EOF read error
instead of succeeding again. -/
theorem mockCommand_run_consumes_stdin (c : MockCommand) (h1 : c.Stdin ≠ [])
    (h2 : c.stdin = some (.buffer c.Stdin)) (h3 : c.Err = none) :
    (c.Run).1 = none ∧
    ((c.Run).2).stdin = some (.buffer []) ∧
    (((c.Run).2).Run).1 = some GoError.eof ∧
    (((c.Run).2).Run).1 ≠ none := by
  have hc := checkStdin_buffer_match c c.Stdin h1 h2 (le_refl _) (List.take_length _)
  rw [List.drop_length] at hc
  have hrun : c.Run = (c.Err, { c with stdin := some (.buffer []) }) := by
    simp [MockCommand.Run, hc]
  have hc2 : ({ c with stdin := some (Reader.buffer []) } : MockCommand).checkStdin =
      (some .eof, { c with stdin := some (.buffer []) }) := by
    exact checkStdin_buffer_exhausted _ h1 rfl
  have hrun2 : ({ c with stdin := some (Reader.buffer []) } : MockCommand).Run =
      (some GoError.eof, { c with stdin := some (.buffer []) }) := by
    simp [MockCommand.Run, hc2]
  refine ⟨?_, ?_, ?_, ?_⟩
  · rw [hrun]
    exact h3
  · rw [hrun]
  · rw [hrun]
    show (({ c with stdin := some (Reader.buffer []) } : MockCommand).Run).1 = some GoError.eof
    rw [hrun2]
  · rw [hrun]
    show (({ c with stdin := some (Reader.buffer []) } : MockCommand).Run).1 ≠ none
    rw [hrun2]
    simp

/-- Witness for C10: the cat command expecting `hello world` succeeds
once against a buffer holding exactly that, and the second run returns
EOF. -/
theorem mockCommand_run_consumes_stdin_witness :
    (catHelloFed.Run).1 = none ∧
    ((catHelloFed.Run).2.Run).1 = some GoError.eof := by
  have h := mockCommand_run_consumes_stdin catHelloFed (by decide) rfl rfl
  exact ⟨h.1, h.2.2.1⟩
